import Mathlib

/-!
Verification development for the MLX LoRA fine-tuning notebook
(src/MLX_Fine-Tuning/mlx-fine-tuning.ipynb).

The notebook's own code is a thin layer of glue around an external ML
framework: a list-backed dataset wrapper (`Dataset`), a JSON-lines loader
(`load_dataset`), a model-surgery function that walks a fixed module tree
and swaps linear projections for LoRA wrappers
(`modify_model_with_lora`), and a function that assembles a training
configuration and invokes the external trainer (`train_model`).

This file shallowly embeds that glue code:
  - JSON values produced by the external `json.loads` are an inductive
    `JsonValue`; the parser itself is external library code and is passed
    in as a function `String → Except String JsonValue`.
  - Python list indexing (`xs[i]` with negative-index support) is
    `pyListGet`; Python attribute presence (`hasattr`) is `Option`;
    in-place mutation is modelled functionally (the function returns the
    updated tree).
  - The filesystem is a map from path to the file's lines, `none` when
    the path does not exist.  Lines are stored without the trailing
    newline character; the external parser rejects the empty string, as
    `json.loads("")` and `json.loads("\n")` both do.
-/

namespace VodalusMLX

/-- A JSON value, as produced by the external JSON parser. Numbers are
modelled as integers; none of the notebook's behaviour inspects numeric
values. -/
inductive JsonValue where
  | null
  | bool (b : Bool)
  | num (n : Int)
  | str (s : String)
  | arr (elems : List JsonValue)
  | obj (fields : List (String × JsonValue))

/-- The `Dataset` class: a list of parsed records and the field key
(default "text") under which text is stored. -/
structure Dataset where
  data : List JsonValue
  key : String

/-- Python list indexing `xs[idx]` for `idx : int`: non-negative indices
index from the front, indices in `[-len, -1]` index from the back, and
anything else raises `IndexError` (modelled as `none`). -/
def pyListGet {α : Type} (xs : List α) (idx : Int) : Option α :=
  if 0 ≤ idx then xs[idx.toNat]?
  else if -(xs.length : Int) ≤ idx then xs[((xs.length : Int) + idx).toNat]?
  else none

/-- The ways `Dataset.__getitem__` can raise: `IndexError` from the list
index, `KeyError` from the dict lookup, `TypeError` when the record is
not a dict at all. -/
inductive GetError where
  | indexError
  | keyError (key : String)
  | typeError
deriving DecidableEq

/-- `Dataset.__getitem__(idx)`, i.e. `self._data[idx][self._key]`:
first Python list indexing, then dict lookup on the record. -/
def Dataset.getitem (d : Dataset) (idx : Int) : Except GetError JsonValue :=
  match pyListGet d.data idx with
  | none => .error .indexError
  | some (.obj fields) =>
      match fields.lookup d.key with
      | some v => .ok v
      | none => .error (.keyError d.key)
  | some _ => .error .typeError

/-- `Dataset.__len__`. -/
def Dataset.len (d : Dataset) : Nat := d.data.length

/-- The filesystem, as `load_dataset` observes it: a map from path to
the file's lines (without trailing newlines), or `none` when the path
does not exist. -/
structure FileSystem where
  files : String → Option (List String)

/-- Errors raised by `load_dataset`: `FileNotFoundError` or a
`json.JSONDecodeError` escaping from `json.loads`. -/
inductive LoadError where
  | fileNotFound (path : String)
  | parseError (msg : String)
deriving DecidableEq

/-- The list comprehension `[json.loads(line) for line in fid]`: apply
the parser to each line in order, collecting results; the first parse
failure aborts the whole comprehension and propagates. -/
def mapLines (jsonLoads : String → Except String JsonValue) :
    List String → Except String (List JsonValue)
  | [] => .ok []
  | line :: rest =>
      match jsonLoads line with
      | .error e => .error e
      | .ok v =>
          match mapLines jsonLoads rest with
          | .error e => .error e
          | .ok vs => .ok (v :: vs)

/-- `load_dataset(path)`: raise `FileNotFoundError` when the path does
not exist, otherwise parse each line with the external `json.loads`
(the list comprehension stops at the first parse failure, which
propagates) and wrap the parsed records in a `Dataset` with the default
key "text". -/
def load_dataset (fs : FileSystem) (jsonLoads : String → Except String JsonValue)
    (path : String) : Except LoadError Dataset :=
  match fs.files path with
  | none => .error (.fileNotFound path)
  | some lines =>
      match mapLines jsonLoads lines with
      | .error msg => .error (.parseError msg)
      | .ok data => .ok ⟨data, "text"⟩

/-- The text field of a parsed record: the value stored under "text"
when the record is a JSON object, `none` otherwise. -/
def recordText : JsonValue → Option JsonValue
  | .obj fields => fields.lookup "text"
  | _ => none

/-! ## The module tree and `modify_model_with_lora` -/

/-- A plain linear layer's weight: an identity (so that "built from the
existing module" is expressible) and its trainable flag. -/
structure LinearWeight where
  wid : Nat
  trainable : Bool
deriving DecidableEq

/-- A projection module: either a plain linear layer, or a
`LoRALinear` wrapper around an existing module.  The wrapper keeps the
wrapped module and adds a fresh low-rank adapter pair whose own
trainable flag is `adapterTrainable`, with hyperparameters `r` and
`alpha`. -/
inductive Proj where
  | linear (w : LinearWeight)
  | lora (base : Proj) (adapterTrainable : Bool) (r : Nat) (alpha : Nat)
deriving DecidableEq

/-- `LoRALinear.from_linear(m, r, alpha)` (external factory): wrap the
existing module and add a freshly created — hence trainable — adapter
pair. -/
def from_linear (m : Proj) (r : Nat) (alpha : Nat) : Proj :=
  Proj.lora m true r alpha

/-- An attention block (`l.self_attn`).  Each of the four projection
attributes may be absent (`hasattr` is modelled by `Option`). -/
structure Attention where
  q_proj : Option Proj
  k_proj : Option Proj
  v_proj : Option Proj
  o_proj : Option Proj
deriving DecidableEq

/-- An expert module inside a mixture-of-experts block; the code probes
it for all seven projection names. -/
structure Expert where
  q_proj : Option Proj
  k_proj : Option Proj
  v_proj : Option Proj
  o_proj : Option Proj
  gate_proj : Option Proj
  up_proj : Option Proj
  down_proj : Option Proj
deriving DecidableEq

/-- A sparse mixture-of-experts block (`l.block_sparse_moe`): the code
probes it for the three feed-forward projection names, and iterates over
its `experts`. -/
structure MoEBlock where
  gate_proj : Option Proj
  up_proj : Option Proj
  down_proj : Option Proj
  experts : List Expert
deriving DecidableEq

/-- One transformer layer: an attention block, and possibly a
mixture-of-experts block (`hasattr(l, "block_sparse_moe")`). -/
structure Layer where
  self_attn : Attention
  block_sparse_moe : Option MoEBlock
deriving DecidableEq

/-- The inner model object (`model.model`), holding the layer list. -/
structure InnerModel where
  layers : List Layer
deriving DecidableEq

/-- The loaded model object (`model`). -/
structure Model where
  model : InnerModel
deriving DecidableEq

/-- `model.freeze()` on a projection: mark every parameter in it
non-trainable, including any adapter parameters already present. -/
def freezeProj : Proj → Proj
  | .linear w => .linear ⟨w.wid, false⟩
  | .lora b _ r a => .lora (freezeProj b) false r a

/-- Freeze an optional projection attribute. -/
def freezeOpt (p : Option Proj) : Option Proj := p.map freezeProj

/-- Freeze every parameter of an attention block. -/
def freezeAttention (a : Attention) : Attention :=
  ⟨freezeOpt a.q_proj, freezeOpt a.k_proj, freezeOpt a.v_proj, freezeOpt a.o_proj⟩

/-- Freeze every parameter of an expert. -/
def freezeExpert (e : Expert) : Expert :=
  ⟨freezeOpt e.q_proj, freezeOpt e.k_proj, freezeOpt e.v_proj, freezeOpt e.o_proj,
   freezeOpt e.gate_proj, freezeOpt e.up_proj, freezeOpt e.down_proj⟩

/-- Freeze every parameter of a mixture-of-experts block. -/
def freezeMoE (mo : MoEBlock) : MoEBlock :=
  ⟨freezeOpt mo.gate_proj, freezeOpt mo.up_proj, freezeOpt mo.down_proj,
   mo.experts.map freezeExpert⟩

/-- Freeze every parameter of a layer. -/
def freezeLayer (l : Layer) : Layer :=
  ⟨freezeAttention l.self_attn, l.block_sparse_moe.map freezeMoE⟩

/-- `model.freeze()`: mark every existing parameter in the tree as
non-trainable. -/
def Model.freeze (m : Model) : Model :=
  ⟨⟨m.model.layers.map freezeLayer⟩⟩

/-- The body of the attention loop: for each of the first four
projection names, if the attribute is present, replace it with
`LoRALinear.from_linear(getattr(...), r=64, alpha=128)`. -/
def adaptAttention (a : Attention) : Attention :=
  ⟨a.q_proj.map (fun p => from_linear p 64 128),
   a.k_proj.map (fun p => from_linear p 64 128),
   a.v_proj.map (fun p => from_linear p 64 128),
   a.o_proj.map (fun p => from_linear p 64 128)⟩

/-- The body of the expert loop: check all seven projection names on the
expert and replace each present one. -/
def adaptExpert (e : Expert) : Expert :=
  ⟨e.q_proj.map (fun p => from_linear p 64 128),
   e.k_proj.map (fun p => from_linear p 64 128),
   e.v_proj.map (fun p => from_linear p 64 128),
   e.o_proj.map (fun p => from_linear p 64 128),
   e.gate_proj.map (fun p => from_linear p 64 128),
   e.up_proj.map (fun p => from_linear p 64 128),
   e.down_proj.map (fun p => from_linear p 64 128)⟩

/-- The mixture-of-experts branch: replace the three feed-forward
projections on the block itself if present, then run the expert loop on
every expert. -/
def adaptMoE (mo : MoEBlock) : MoEBlock :=
  ⟨mo.gate_proj.map (fun p => from_linear p 64 128),
   mo.up_proj.map (fun p => from_linear p 64 128),
   mo.down_proj.map (fun p => from_linear p 64 128),
   mo.experts.map adaptExpert⟩

/-- One iteration of the layer loop. -/
def adaptLayer (l : Layer) : Layer :=
  ⟨adaptAttention l.self_attn, l.block_sparse_moe.map adaptMoE⟩

/-- `modify_model_with_lora(model)`: freeze the whole tree, then walk
`model.model.layers` performing the presence-conditional replacements.
The Python function mutates in place and returns `None`; the model here
returns the mutated tree. -/
def modify_model_with_lora (m : Model) : Model :=
  ⟨⟨(m.freeze).model.layers.map adaptLayer⟩⟩

/-! ## The training orchestrator -/

/-- The `TrainingArgs` configuration record passed to the external
trainer. -/
structure TrainingArgs where
  batch_size : Nat
  iters : Nat
  val_batches : Nat
  steps_per_report : Nat
  steps_per_eval : Nat
  steps_per_save : Nat
  adapter_file : String
  max_seq_length : Nat
deriving DecidableEq

/-- A learning-rate schedule, as built by the external
`optim.cosine_decay(init, decay_steps)` constructor.  The Python float
literal `1e-5` is modelled as the rational it denotes. -/
inductive LRSchedule where
  | cosine_decay (initRate : Rat) (decaySteps : Nat)
deriving DecidableEq

/-- An optimizer, as built by the external `optim.AdamW` constructor,
bound to its learning-rate schedule. -/
inductive Optimizer where
  | adamW (learning_rate : LRSchedule)
deriving DecidableEq

/-- The invocation of the external `train` entry point: everything
`train_model` hands over.  The model and tokenizer types are opaque to
this layer. -/
structure TrainInvocation (M T : Type) where
  model : M
  tokenizer : T
  args : TrainingArgs
  optimizer : Optimizer
  train_dataset : Dataset
  val_dataset : Dataset

/-- `train_model(model, tokenizer, train_dst, valid_dst)`: build the
`TrainingArgs` from the fixed literals, build the cosine-decay schedule
over `trainingArgs.iters` steps, build the `AdamW` optimizer on that
schedule, and call the external trainer with all of it. -/
def train_model {M T : Type} (model : M) (tokenizer : T)
    (train_dst valid_dst : Dataset) : TrainInvocation M T :=
  let trainingArgs : TrainingArgs :=
    ⟨1, 5000, 25, 10, 200, 200, "adapters.npz", 4096⟩
  let decay_steps := trainingArgs.iters
  let lr_schedule := LRSchedule.cosine_decay (1 / 100000) decay_steps
  let opt := Optimizer.adamW lr_schedule
  ⟨model, tokenizer, trainingArgs, opt, train_dst, valid_dst⟩

/-! ## Observers on the module tree

Parameter lists collect the trainable flag of every parameter group in
the tree: one flag per plain linear weight, one per adapter pair.
Adapter counts count the projection attributes currently holding a
`LoRALinear` wrapper. -/

/-- The trainable flags of all parameter groups inside a projection. -/
def projParams : Proj → List Bool
  | .linear w => [w.trainable]
  | .lora b t _ _ => projParams b ++ [t]

/-- Parameter flags of an optional projection attribute. -/
def optParams : Option Proj → List Bool
  | none => []
  | some p => projParams p

/-- Parameter flags of an attention block. -/
def attentionParams (a : Attention) : List Bool :=
  optParams a.q_proj ++ optParams a.k_proj ++ optParams a.v_proj ++ optParams a.o_proj

/-- Parameter flags of an expert. -/
def expertParams (e : Expert) : List Bool :=
  optParams e.q_proj ++ optParams e.k_proj ++ optParams e.v_proj ++ optParams e.o_proj
    ++ optParams e.gate_proj ++ optParams e.up_proj ++ optParams e.down_proj

/-- Parameter flags of a mixture-of-experts block. -/
def moeParams (mo : MoEBlock) : List Bool :=
  optParams mo.gate_proj ++ optParams mo.up_proj ++ optParams mo.down_proj
    ++ (mo.experts.map expertParams).flatten

/-- Parameter flags of a layer. -/
def layerParams (l : Layer) : List Bool :=
  attentionParams l.self_attn
    ++ (match l.block_sparse_moe with
        | none => []
        | some mo => moeParams mo)

/-- Parameter flags of the whole model. -/
def modelParams (m : Model) : List Bool :=
  (m.model.layers.map layerParams).flatten

/-- Whether every parameter inside a projection is frozen. -/
def projAllFrozen : Proj → Bool
  | .linear w => !w.trainable
  | .lora b t _ _ => projAllFrozen b && !t

/-- A projection attribute currently holds an adapter wrapper. -/
def countAdapter : Option Proj → Nat
  | some (Proj.lora _ _ _ _) => 1
  | _ => 0

/-- Number of adapter-wrapped projection attributes in an attention
block. -/
def attentionAdapters (a : Attention) : Nat :=
  countAdapter a.q_proj + countAdapter a.k_proj + countAdapter a.v_proj
    + countAdapter a.o_proj

/-- Number of adapter-wrapped projection attributes in an expert. -/
def expertAdapters (e : Expert) : Nat :=
  countAdapter e.q_proj + countAdapter e.k_proj + countAdapter e.v_proj
    + countAdapter e.o_proj + countAdapter e.gate_proj + countAdapter e.up_proj
    + countAdapter e.down_proj

/-- Number of adapter-wrapped projection attributes in a
mixture-of-experts block. -/
def moeAdapters (mo : MoEBlock) : Nat :=
  countAdapter mo.gate_proj + countAdapter mo.up_proj + countAdapter mo.down_proj
    + (mo.experts.map expertAdapters).sum

/-- Number of adapter-wrapped projection attributes in a layer. -/
def layerAdapters (l : Layer) : Nat :=
  attentionAdapters l.self_attn
    + (match l.block_sparse_moe with
       | none => 0
       | some mo => moeAdapters mo)

/-- Number of adapter-wrapped projection attributes in the model. -/
def modelAdapters (m : Model) : Nat :=
  (m.model.layers.map layerAdapters).sum

/-- What the injector installs over each present projection: a wrapper,
built with `r=64` and `alpha=128` from the existing module after the
freeze pass, whose fresh adapter pair is trainable. -/
def wrapFrozen (p : Proj) : Proj :=
  Proj.lora (freezeProj p) true 64 128

/-- A projection holds a freshly installed adapter wrapper: hyper-
parameters `r=64`, `alpha=128`, trainable adapter pair, and every
parameter of the wrapped module frozen. -/
def isFreshAdapter : Proj → Bool
  | .lora b t r a => projAllFrozen b && t && decide (r = 64) && decide (a = 128)
  | .linear _ => false

/-! ## Concrete inputs used by the witnesses -/

/-- A one-record dataset, record `{"text":"a"}`. -/
def singletonDataset : Dataset :=
  ⟨[JsonValue.obj [("text", JsonValue.str "a")]], "text"⟩

/-- A two-record dataset whose second record lacks the "text" key. -/
def mixedKeyDataset : Dataset :=
  ⟨[JsonValue.obj [("text", JsonValue.str "a")],
    JsonValue.obj [("label", JsonValue.num 1)]], "text"⟩

/-- The line `{"text":"a"}`. -/
def lineA : String := "\x7b\"text\":\"a\"\x7d"

/-- The line `{"text":"b"}`. -/
def lineB : String := "\x7b\"text\":\"b\"\x7d"

/-- The line `{"label":1}` — valid JSON, no "text" key. -/
def lineNoText : String := "\x7b\"label\":1\x7d"

/-- The line `123` — valid JSON, not an object. -/
def lineNum : String := "123"

/-- A toy stand-in for the external `json.loads`, defined on the lines
the witnesses use and rejecting everything else (in particular the
empty line, as `json.loads` does). -/
def toyParse : String → Except String JsonValue := fun s =>
  if s = lineA then Except.ok (JsonValue.obj [("text", JsonValue.str "a")])
  else if s = lineB then Except.ok (JsonValue.obj [("text", JsonValue.str "b")])
  else if s = lineNoText then Except.ok (JsonValue.obj [("label", JsonValue.num 1)])
  else if s = lineNum then Except.ok (JsonValue.num 123)
  else Except.error "Expecting value"

/-- A filesystem holding one two-line JSON-lines file. -/
def pairFS : FileSystem := ⟨fun p => if p = "data.jsonl" then some [lineA, lineB] else none⟩

/-- A filesystem with no files at all. -/
def emptyFS : FileSystem := ⟨fun _ => none⟩

/-- A filesystem holding one file whose second line is malformed. -/
def malformedFS : FileSystem :=
  ⟨fun p => if p = "bad.jsonl" then some [lineA, "oops"] else none⟩

/-- A filesystem holding one file of valid JSON lines, one of which is
not an object and one of which lacks the "text" key. -/
def schemalessFS : FileSystem :=
  ⟨fun p => if p = "odd.jsonl" then some [lineA, lineNum, lineNoText] else none⟩

/-- A fresh (trainable) linear projection with weight identity `n`. -/
def freshLinear (n : Nat) : Proj := Proj.linear ⟨n, true⟩

/-- An attention block exposing all four projections. -/
def fullAttention : Attention :=
  ⟨some (freshLinear 0), some (freshLinear 1), some (freshLinear 2), some (freshLinear 3)⟩

/-- A layer with a full attention block and no mixture-of-experts
block. -/
def fullLayer : Layer := ⟨fullAttention, none⟩

/-- A two-layer model, all four attention projections present, no
mixture-of-experts blocks. -/
def fullModel : Model := ⟨⟨[fullLayer, fullLayer]⟩⟩

/-- An attention block exposing only `q_proj` and `v_proj`. -/
def partialAttention : Attention :=
  ⟨some (freshLinear 10), none, some (freshLinear 11), none⟩

/-- A one-layer model whose attention block exposes only `q_proj` and
`v_proj`. -/
def partialModel : Model := ⟨⟨[⟨partialAttention, none⟩]⟩⟩

/-- An expert exposing `gate_proj`, `up_proj`, `down_proj` and
`q_proj`. -/
def sampleExpert : Expert :=
  ⟨some (freshLinear 20), none, none, none,
   some (freshLinear 21), some (freshLinear 22), some (freshLinear 23)⟩

/-- A mixture-of-experts block with `gate_proj` and `up_proj` present,
`down_proj` absent, and two experts. -/
def sampleMoE : MoEBlock :=
  ⟨some (freshLinear 30), some (freshLinear 31), none, [sampleExpert, sampleExpert]⟩

/-- A one-layer model whose layer carries the sample mixture-of-experts
block. -/
def moeModel : Model := ⟨⟨[⟨fullAttention, some sampleMoE⟩]⟩⟩

/-! ## Helper lemmas -/

/-- Python list indexing returns nothing exactly outside
`[-len, len)`. -/
theorem pyListGet_eq_none {α : Type} (xs : List α) (idx : Int) :
    pyListGet xs idx = none ↔ idx < -(xs.length : Int) ∨ (xs.length : Int) ≤ idx := by
  unfold pyListGet
  split
  · rename_i h0
    rw [List.getElem?_eq_none_iff]
    omega
  · rename_i h0
    split
    · rename_i hneg
      rw [List.getElem?_eq_none_iff]
      omega
    · rename_i hneg
      simp only [true_iff]
      omega

/-- Python list indexing at a natural-number index inside the list. -/
theorem pyListGet_nat {α : Type} (xs : List α) (i : Nat) (hi : i < xs.length) :
    pyListGet xs (i : Int) = some (xs.get ⟨i, hi⟩) := by
  unfold pyListGet
  rw [if_pos (by omega : (0 : Int) ≤ (i : Int))]
  simp [List.getElem?_eq_getElem, hi, List.get_eq_getElem]

/-- A successful comprehension produces one record per line. -/
theorem mapLines_ok_length (f : String → Except String JsonValue)
    (lines : List String) (vs : List JsonValue)
    (h : mapLines f lines = Except.ok vs) : vs.length = lines.length := by
  induction lines generalizing vs with
  | nil =>
    simp only [mapLines] at h
    cases h
    rfl
  | cons line rest ih =>
    simp only [mapLines] at h
    cases hf : f line with
    | error e => rw [hf] at h; cases h
    | ok v =>
      rw [hf] at h
      cases hr : mapLines f rest with
      | error e => rw [hr] at h; cases h
      | ok vs2 =>
        rw [hr] at h
        cases h
        simp [ih vs2 hr]

/-- A successful comprehension means every line parsed. -/
theorem mapLines_ok_mem (f : String → Except String JsonValue)
    (lines : List String) (vs : List JsonValue)
    (h : mapLines f lines = Except.ok vs) :
    ∀ l ∈ lines, ∃ v, f l = Except.ok v := by
  induction lines generalizing vs with
  | nil => intro l hl; exact absurd hl (List.not_mem_nil l)
  | cons line rest ih =>
    simp only [mapLines] at h
    cases hf : f line with
    | error e => rw [hf] at h; cases h
    | ok v =>
      rw [hf] at h
      cases hr : mapLines f rest with
      | error e => rw [hr] at h; cases h
      | ok vs2 =>
        intro l hl
        rcases List.mem_cons.mp hl with rfl | hl
        · exact ⟨v, hf⟩
        · exact ih vs2 hr l hl

/-- A failing line anywhere makes the whole comprehension fail. -/
theorem mapLines_mem_error (f : String → Except String JsonValue)
    (lines : List String) (l : String) (e : String)
    (hl : l ∈ lines) (he : f l = Except.error e) :
    ∃ msg, mapLines f lines = Except.error msg := by
  induction lines with
  | nil => exact absurd hl (List.not_mem_nil l)
  | cons line rest ih =>
    rcases List.mem_cons.mp hl with rfl | hl2
    · exact ⟨e, by simp only [mapLines]; rw [he]⟩
    · cases hf : f line with
      | error e2 => exact ⟨e2, by simp only [mapLines]; rw [hf]⟩
      | ok v =>
        obtain ⟨msg, hmsg⟩ := ih hl2
        exact ⟨msg, by simp only [mapLines]; rw [hf, hmsg]⟩

/-- Freezing a projection leaves every parameter inside it frozen. -/
theorem projAllFrozen_freezeProj (p : Proj) :
    projAllFrozen (freezeProj p) = true := by
  induction p with
  | linear w => simp [freezeProj, projAllFrozen]
  | lora b t r a ih => simp [freezeProj, projAllFrozen, ih]

/-- No parameter of a frozen projection is trainable. -/
theorem count_true_projParams_freeze (p : Proj) :
    (projParams (freezeProj p)).count true = 0 := by
  induction p with
  | linear w => simp [freezeProj, projParams]
  | lora b t r a ih =>
    simp [freezeProj, projParams, List.count_append, ih]

/-- A wrapper installed over a frozen module is a fresh adapter. -/
theorem isFreshAdapter_wrapFrozen (p : Proj) :
    isFreshAdapter (wrapFrozen p) = true := by
  simp [wrapFrozen, isFreshAdapter, projAllFrozen_freezeProj]

/-- A wrapper installed over a frozen module has exactly one trainable
parameter group: its own adapter pair. -/
theorem count_true_projParams_wrapFrozen (p : Proj) :
    (projParams (wrapFrozen p)).count true = 1 := by
  simp [wrapFrozen, projParams, List.count_append, count_true_projParams_freeze]

/-- Freezing then adapting an optional attribute installs the wrapper
over the frozen module, and skips absent attributes. -/
theorem adaptFreezeOpt (x : Option Proj) :
    Option.map (fun p => from_linear p 64 128) (freezeOpt x) = x.map wrapFrozen := by
  cases x <;> rfl

/-- The modified model is the original with every layer frozen and then
adapted. -/
theorem modify_eq_map (m : Model) :
    modify_model_with_lora m
      = ⟨⟨m.model.layers.map (fun l => adaptLayer (freezeLayer l))⟩⟩ := by
  simp [modify_model_with_lora, Model.freeze, List.map_map, Function.comp]

/-- Freezing then adapting an attention block wraps each present
projection over its frozen original and skips absent ones. -/
theorem adaptFreezeAttention_fields (a : Attention) :
    adaptAttention (freezeAttention a)
      = ⟨a.q_proj.map wrapFrozen, a.k_proj.map wrapFrozen,
         a.v_proj.map wrapFrozen, a.o_proj.map wrapFrozen⟩ := by
  cases a
  simp [adaptAttention, freezeAttention, adaptFreezeOpt]

/-- Freezing then adapting an expert wraps each of its seven present
projections over its frozen original and skips absent ones. -/
theorem adaptFreezeExpert_fields (e : Expert) :
    adaptExpert (freezeExpert e)
      = ⟨e.q_proj.map wrapFrozen, e.k_proj.map wrapFrozen, e.v_proj.map wrapFrozen,
         e.o_proj.map wrapFrozen, e.gate_proj.map wrapFrozen, e.up_proj.map wrapFrozen,
         e.down_proj.map wrapFrozen⟩ := by
  cases e
  simp [adaptExpert, freezeExpert, adaptFreezeOpt]

/-- Freezing then adapting a mixture-of-experts block wraps its three
present feed-forward projections and recurses into every expert. -/
theorem adaptFreezeMoE_fields (mo : MoEBlock) :
    adaptMoE (freezeMoE mo)
      = ⟨mo.gate_proj.map wrapFrozen, mo.up_proj.map wrapFrozen,
         mo.down_proj.map wrapFrozen,
         mo.experts.map (fun e => adaptExpert (freezeExpert e))⟩ := by
  cases mo
  simp [adaptMoE, freezeMoE, adaptFreezeOpt, List.map_map, Function.comp]

/-- On a layer with all four attention projections and no
mixture-of-experts block, the freeze-then-adapt pass yields exactly four
adapters, exactly four trainable parameter groups, and fresh adapters
over frozen bases in all four slots. -/
theorem layer_full_adapted (l : Layer)
    (hq : l.self_attn.q_proj.isSome = true) (hk : l.self_attn.k_proj.isSome = true)
    (hv : l.self_attn.v_proj.isSome = true) (ho : l.self_attn.o_proj.isSome = true)
    (hmoe : l.block_sparse_moe = none) :
    layerAdapters (adaptLayer (freezeLayer l)) = 4 ∧
    (layerParams (adaptLayer (freezeLayer l))).count true = 4 ∧
    (∃ p, (adaptLayer (freezeLayer l)).self_attn.q_proj = some p ∧ isFreshAdapter p = true) ∧
    (∃ p, (adaptLayer (freezeLayer l)).self_attn.k_proj = some p ∧ isFreshAdapter p = true) ∧
    (∃ p, (adaptLayer (freezeLayer l)).self_attn.v_proj = some p ∧ isFreshAdapter p = true) ∧
    (∃ p, (adaptLayer (freezeLayer l)).self_attn.o_proj = some p ∧ isFreshAdapter p = true) ∧
    (adaptLayer (freezeLayer l)).block_sparse_moe = none := by
  obtain ⟨pq, hpq⟩ := Option.isSome_iff_exists.mp hq
  obtain ⟨pk, hpk⟩ := Option.isSome_iff_exists.mp hk
  obtain ⟨pv, hpv⟩ := Option.isSome_iff_exists.mp hv
  obtain ⟨po, hpo⟩ := Option.isSome_iff_exists.mp ho
  have hattn : (adaptLayer (freezeLayer l)).self_attn
      = ⟨some (wrapFrozen pq), some (wrapFrozen pk),
         some (wrapFrozen pv), some (wrapFrozen po)⟩ := by
    show adaptAttention (freezeAttention l.self_attn) = _
    rw [adaptFreezeAttention_fields, hpq, hpk, hpv, hpo]
    rfl
  have hmoe2 : (adaptLayer (freezeLayer l)).block_sparse_moe = none := by
    show (l.block_sparse_moe.map freezeMoE).map adaptMoE = none
    rw [hmoe]
    rfl
  refine ⟨?_, ?_, ⟨wrapFrozen pq, ?_, isFreshAdapter_wrapFrozen pq⟩,
    ⟨wrapFrozen pk, ?_, isFreshAdapter_wrapFrozen pk⟩,
    ⟨wrapFrozen pv, ?_, isFreshAdapter_wrapFrozen pv⟩,
    ⟨wrapFrozen po, ?_, isFreshAdapter_wrapFrozen po⟩, hmoe2⟩
  · rw [layerAdapters, hattn, hmoe2]
    simp [attentionAdapters, countAdapter, wrapFrozen]
  · rw [layerParams, hattn, hmoe2]
    simp [attentionParams, optParams, List.count_append, count_true_projParams_wrapFrozen]
  · rw [hattn]
  · rw [hattn]
  · rw [hattn]
  · rw [hattn]

/-- Aggregation of `layer_full_adapted` over a whole layer list. -/
theorem layers_full_aggregate (ls : List Layer)
    (h : ∀ l ∈ ls, l.self_attn.q_proj.isSome = true ∧ l.self_attn.k_proj.isSome = true
      ∧ l.self_attn.v_proj.isSome = true ∧ l.self_attn.o_proj.isSome = true
      ∧ l.block_sparse_moe = none) :
    ((ls.map (fun l => adaptLayer (freezeLayer l))).map layerAdapters).sum = 4 * ls.length ∧
    (((ls.map (fun l => adaptLayer (freezeLayer l))).map layerParams).flatten).count true
      = 4 * ls.length ∧
    ∀ l2 ∈ ls.map (fun l => adaptLayer (freezeLayer l)),
      (∃ p, l2.self_attn.q_proj = some p ∧ isFreshAdapter p = true) ∧
      (∃ p, l2.self_attn.k_proj = some p ∧ isFreshAdapter p = true) ∧
      (∃ p, l2.self_attn.v_proj = some p ∧ isFreshAdapter p = true) ∧
      (∃ p, l2.self_attn.o_proj = some p ∧ isFreshAdapter p = true) ∧
      l2.block_sparse_moe = none := by
  induction ls with
  | nil => simp
  | cons hd tl ih =>
    have hhd := h hd (List.mem_cons_self hd tl)
    have htl : ∀ l ∈ tl, _ := fun l hl => h l (List.mem_cons_of_mem hd hl)
    obtain ⟨a1, a2, a3⟩ := ih htl
    obtain ⟨b1, b2, bq, bk, bv, bo, bmoe⟩ :=
      layer_full_adapted hd hhd.1 hhd.2.1 hhd.2.2.1 hhd.2.2.2.1 hhd.2.2.2.2
    refine ⟨?_, ?_, ?_⟩
    · simp only [List.map_cons, List.sum_cons, b1, a1, List.length_cons]
      omega
    · simp only [List.map_cons, List.flatten_cons, List.count_append, b2, a2,
        List.length_cons]
      omega
    · intro l2 hl2
      rcases List.mem_cons.mp hl2 with rfl | hl2
      · exact ⟨bq, bk, bv, bo, bmoe⟩
      · exact a3 l2 hl2

/-- Claim C1: on a module tree with N layers, each exposing all four
attention projections and no mixture-of-experts block, the injector
freezes every existing parameter and replaces exactly 4N projections
with adapter wrappers built with r=64, alpha=128 over the frozen
originals; the only trainable parameter groups left are the 4N fresh
adapter pairs. -/
theorem modify_model_freezes_and_wraps_all_attention (m : Model)
    (h : ∀ l ∈ m.model.layers,
      l.self_attn.q_proj.isSome = true ∧ l.self_attn.k_proj.isSome = true
        ∧ l.self_attn.v_proj.isSome = true ∧ l.self_attn.o_proj.isSome = true
        ∧ l.block_sparse_moe = none) :
    modelAdapters (modify_model_with_lora m) = 4 * m.model.layers.length ∧
    (modelParams (modify_model_with_lora m)).count true = 4 * m.model.layers.length ∧
    ∀ l ∈ (modify_model_with_lora m).model.layers,
      (∃ p, l.self_attn.q_proj = some p ∧ isFreshAdapter p = true) ∧
      (∃ p, l.self_attn.k_proj = some p ∧ isFreshAdapter p = true) ∧
      (∃ p, l.self_attn.v_proj = some p ∧ isFreshAdapter p = true) ∧
      (∃ p, l.self_attn.o_proj = some p ∧ isFreshAdapter p = true) ∧
      l.block_sparse_moe = none := by
  rw [modify_eq_map]
  exact layers_full_aggregate m.model.layers h

/-- Witness for C1 at a concrete two-layer model. -/
theorem modify_model_freezes_and_wraps_all_attention_app :
    modelAdapters (modify_model_with_lora fullModel) = 4 * fullModel.model.layers.length ∧
    (modelParams (modify_model_with_lora fullModel)).count true
      = 4 * fullModel.model.layers.length ∧
    ∀ l ∈ (modify_model_with_lora fullModel).model.layers,
      (∃ p, l.self_attn.q_proj = some p ∧ isFreshAdapter p = true) ∧
      (∃ p, l.self_attn.k_proj = some p ∧ isFreshAdapter p = true) ∧
      (∃ p, l.self_attn.v_proj = some p ∧ isFreshAdapter p = true) ∧
      (∃ p, l.self_attn.o_proj = some p ∧ isFreshAdapter p = true) ∧
      l.block_sparse_moe = none :=
  modify_model_freezes_and_wraps_all_attention fullModel (by decide)

/-- The layer at index i of the modified model is the frozen-then-
adapted layer at index i of the original. -/
theorem modify_layers_getElem (m : Model) (i : Nat) (l : Layer)
    (hl : m.model.layers[i]? = some l) :
    (modify_model_with_lora m).model.layers[i]? = some (adaptLayer (freezeLayer l)) := by
  rw [modify_eq_map]
  show (m.model.layers.map (fun l => adaptLayer (freezeLayer l)))[i]? = _
  rw [List.getElem?_map, hl]
  rfl

/-- Claim C5: on a tree whose layer-i attention block exposes only
`q_proj` and `v_proj`, the injector replaces exactly those two with
wrappers over the frozen originals, raises no error (the replacement is
total), leaves `k_proj` and `o_proj` absent, and wraps nothing else in
that attention block. -/
theorem modify_partial_attention_frame (m : Model) (i : Nat) (l : Layer)
    (pq pv : Proj)
    (hl : m.model.layers[i]? = some l)
    (hq : l.self_attn.q_proj = some pq) (hk : l.self_attn.k_proj = none)
    (hv : l.self_attn.v_proj = some pv) (ho : l.self_attn.o_proj = none) :
    ∃ l2 : Layer, (modify_model_with_lora m).model.layers[i]? = some l2 ∧
      l2.self_attn.q_proj = some (wrapFrozen pq) ∧
      l2.self_attn.k_proj = none ∧
      l2.self_attn.v_proj = some (wrapFrozen pv) ∧
      l2.self_attn.o_proj = none ∧
      attentionAdapters l2.self_attn = 2 := by
  refine ⟨adaptLayer (freezeLayer l), modify_layers_getElem m i l hl, ?_⟩
  have hattn : (adaptLayer (freezeLayer l)).self_attn
      = ⟨some (wrapFrozen pq), none, some (wrapFrozen pv), none⟩ := by
    show adaptAttention (freezeAttention l.self_attn) = _
    rw [adaptFreezeAttention_fields, hq, hk, hv, ho]
    rfl
  rw [hattn]
  refine ⟨rfl, rfl, rfl, rfl, ?_⟩
  simp [attentionAdapters, countAdapter, wrapFrozen]

/-- Witness for C5 at a concrete one-layer model whose attention block
has only `q_proj` and `v_proj`. -/
theorem modify_partial_attention_frame_app :
    ∃ l2 : Layer, (modify_model_with_lora partialModel).model.layers[0]? = some l2 ∧
      l2.self_attn.q_proj = some (wrapFrozen (freshLinear 10)) ∧
      l2.self_attn.k_proj = none ∧
      l2.self_attn.v_proj = some (wrapFrozen (freshLinear 11)) ∧
      l2.self_attn.o_proj = none ∧
      attentionAdapters l2.self_attn = 2 :=
  modify_partial_attention_frame partialModel 0 ⟨partialAttention, none⟩
    (freshLinear 10) (freshLinear 11) rfl rfl rfl rfl rfl

/-- Claim C4: on a layer carrying a sparse mixture-of-experts block,
the injector applies the presence-conditional replacement to
`gate_proj`, `up_proj`, `down_proj` directly on the block, and then,
independently for every expert inside it, the same check-and-replace
across all seven projection names. -/
theorem modify_moe_replacement (m : Model) (i : Nat) (l : Layer) (mo : MoEBlock)
    (hl : m.model.layers[i]? = some l)
    (hmoe : l.block_sparse_moe = some mo) :
    ∃ (l2 : Layer) (mo2 : MoEBlock), (modify_model_with_lora m).model.layers[i]? = some l2 ∧
      l2.block_sparse_moe = some mo2 ∧
      mo2.gate_proj = mo.gate_proj.map wrapFrozen ∧
      mo2.up_proj = mo.up_proj.map wrapFrozen ∧
      mo2.down_proj = mo.down_proj.map wrapFrozen ∧
      mo2.experts.length = mo.experts.length ∧
      ∀ (j : Nat) (e : Expert), mo.experts[j]? = some e →
        ∃ e2 : Expert, mo2.experts[j]? = some e2 ∧
          e2.q_proj = e.q_proj.map wrapFrozen ∧
          e2.k_proj = e.k_proj.map wrapFrozen ∧
          e2.v_proj = e.v_proj.map wrapFrozen ∧
          e2.o_proj = e.o_proj.map wrapFrozen ∧
          e2.gate_proj = e.gate_proj.map wrapFrozen ∧
          e2.up_proj = e.up_proj.map wrapFrozen ∧
          e2.down_proj = e.down_proj.map wrapFrozen := by
  refine ⟨adaptLayer (freezeLayer l), adaptMoE (freezeMoE mo),
    modify_layers_getElem m i l hl, ?_, ?_, ?_, ?_, ?_, ?_⟩
  · show (l.block_sparse_moe.map freezeMoE).map adaptMoE = _
    rw [hmoe]
    rfl
  · rw [adaptFreezeMoE_fields]
  · rw [adaptFreezeMoE_fields]
  · rw [adaptFreezeMoE_fields]
  · rw [adaptFreezeMoE_fields]
    simp [List.length_map]
  · intro j e he
    refine ⟨adaptExpert (freezeExpert e), ?_, ?_, ?_, ?_, ?_, ?_, ?_, ?_⟩
    · rw [adaptFreezeMoE_fields]
      show (mo.experts.map (fun e => adaptExpert (freezeExpert e)))[j]? = _
      rw [List.getElem?_map, he]
      rfl
    all_goals rw [adaptFreezeExpert_fields]

/-- Witness for C4 at a concrete one-layer model with a mixture-of-
experts block of two experts. -/
theorem modify_moe_replacement_app :
    ∃ (l2 : Layer) (mo2 : MoEBlock), (modify_model_with_lora moeModel).model.layers[0]? = some l2 ∧
      l2.block_sparse_moe = some mo2 ∧
      mo2.gate_proj = (sampleMoE.gate_proj.map wrapFrozen) ∧
      mo2.up_proj = (sampleMoE.up_proj.map wrapFrozen) ∧
      mo2.down_proj = (sampleMoE.down_proj.map wrapFrozen) ∧
      mo2.experts.length = sampleMoE.experts.length ∧
      ∀ (j : Nat) (e : Expert), sampleMoE.experts[j]? = some e →
        ∃ e2 : Expert, mo2.experts[j]? = some e2 ∧
          e2.q_proj = e.q_proj.map wrapFrozen ∧
          e2.k_proj = e.k_proj.map wrapFrozen ∧
          e2.v_proj = e.v_proj.map wrapFrozen ∧
          e2.o_proj = e.o_proj.map wrapFrozen ∧
          e2.gate_proj = e.gate_proj.map wrapFrozen ∧
          e2.up_proj = e.up_proj.map wrapFrozen ∧
          e2.down_proj = e.down_proj.map wrapFrozen :=
  modify_moe_replacement moeModel 0 ⟨fullAttention, some sampleMoE⟩ sampleMoE rfl rfl

/-- Unfolding `load_dataset` on an existing file. -/
theorem load_dataset_some (fs : FileSystem) (jsonLoads : String → Except String JsonValue)
    (path : String) (lines : List String) (hfs : fs.files path = some lines) :
    load_dataset fs jsonLoads path
      = match mapLines jsonLoads lines with
        | .error msg => .error (.parseError msg)
        | .ok data => .ok ⟨data, "text"⟩ := by
  unfold load_dataset
  rw [hfs]

/-- `getitem` at a valid index whose record is an object holding the
key. -/
theorem getitem_ok_of (d : Dataset) (i : Nat) (hi : i < d.data.length)
    (fields : List (String × JsonValue)) (t : JsonValue)
    (hrec : d.data.get ⟨i, hi⟩ = JsonValue.obj fields)
    (hlk : fields.lookup d.key = some t) :
    d.getitem (i : Int) = Except.ok t := by
  unfold Dataset.getitem
  rw [pyListGet_nat d.data i hi, hrec]
  show (match fields.lookup d.key with
        | some v => Except.ok v
        | none => Except.error (GetError.keyError d.key)) = Except.ok t
  rw [hlk]

/-- `getitem` at a valid index whose record is an object lacking the
key raises `KeyError`. -/
theorem getitem_keyError_of (d : Dataset) (i : Nat) (hi : i < d.data.length)
    (fields : List (String × JsonValue))
    (hrec : d.data.get ⟨i, hi⟩ = JsonValue.obj fields)
    (hlk : fields.lookup d.key = none) :
    d.getitem (i : Int) = Except.error (GetError.keyError d.key) := by
  unfold Dataset.getitem
  rw [pyListGet_nat d.data i hi, hrec]
  show (match fields.lookup d.key with
        | some v => Except.ok v
        | none => Except.error (GetError.keyError d.key))
      = Except.error (GetError.keyError d.key)
  rw [hlk]

/-- `getitem` at a valid index whose record is not an object raises
`TypeError`. -/
theorem getitem_typeError_of (d : Dataset) (i : Nat) (hi : i < d.data.length)
    (hrec : ∀ fields, d.data.get ⟨i, hi⟩ ≠ JsonValue.obj fields) :
    d.getitem (i : Int) = Except.error GetError.typeError := by
  unfold Dataset.getitem
  rw [pyListGet_nat d.data i hi]
  cases hv : d.data.get ⟨i, hi⟩ with
  | obj fields => exact absurd hv (hrec fields)
  | null => rfl
  | bool b => rfl
  | num n => rfl
  | str s => rfl
  | arr elems => rfl

/-- Claim C2: on a valid line-delimited file (every line parses, and the
parser rejects the empty string, as `json.loads` does) whose records all
carry a "text" field, the loader returns an accessor whose length is the
number of non-empty lines — which is all of them — and whose `get i`
returns exactly the text field of record i. -/
theorem load_dataset_valid_file (fs : FileSystem)
    (jsonLoads : String → Except String JsonValue) (path : String)
    (lines : List String) (vs : List JsonValue)
    (hfs : fs.files path = some lines)
    (hparse : mapLines jsonLoads lines = Except.ok vs)
    (hempty : ∀ v, jsonLoads "" ≠ Except.ok v)
    (htext : ∀ v ∈ vs, ∃ t, recordText v = some t) :
    ∃ d : Dataset, load_dataset fs jsonLoads path = Except.ok d ∧
      d.len = (lines.filter (fun l => decide ¬(l = ""))).length ∧
      d.len = vs.length ∧
      ∀ i (hi : i < vs.length), ∃ t,
        recordText (vs.get ⟨i, hi⟩) = some t ∧ d.getitem (i : Int) = Except.ok t := by
  refine ⟨⟨vs, "text"⟩, ?_, ?_, rfl, ?_⟩
  · rw [load_dataset_some fs jsonLoads path lines hfs, hparse]
  · have hne : ∀ l ∈ lines, (fun l => decide ¬(l = "")) l = true := by
      intro l hl
      obtain ⟨v, hv⟩ := mapLines_ok_mem jsonLoads lines vs hparse l hl
      simp only [decide_eq_true_eq]
      intro heq
      rw [heq] at hv
      exact hempty v hv
    rw [List.filter_eq_self.mpr hne]
    exact mapLines_ok_length jsonLoads lines vs hparse
  · intro i hi
    obtain ⟨t, ht⟩ := htext (vs.get ⟨i, hi⟩) (List.get_mem vs i hi)
    refine ⟨t, ht, ?_⟩
    cases hval : vs.get ⟨i, hi⟩ with
    | obj fields =>
      rw [hval] at ht
      exact getitem_ok_of ⟨vs, "text"⟩ i hi fields t hval ht
    | null => rw [hval] at ht; exact Option.noConfusion ht
    | bool b => rw [hval] at ht; exact Option.noConfusion ht
    | num n => rw [hval] at ht; exact Option.noConfusion ht
    | str s => rw [hval] at ht; exact Option.noConfusion ht
    | arr elems => rw [hval] at ht; exact Option.noConfusion ht

/-- Witness for C2 at the two-line file of the spec's end-to-end
example. -/
theorem load_dataset_valid_file_app :
    ∃ d : Dataset, load_dataset pairFS toyParse "data.jsonl" = Except.ok d ∧
      d.len = (([lineA, lineB]).filter (fun l => decide ¬(l = ""))).length ∧
      d.len = ([JsonValue.obj [("text", JsonValue.str "a")],
                JsonValue.obj [("text", JsonValue.str "b")]] : List JsonValue).length ∧
      ∀ i (hi : i < ([JsonValue.obj [("text", JsonValue.str "a")],
                JsonValue.obj [("text", JsonValue.str "b")]] : List JsonValue).length),
        ∃ t, recordText (([JsonValue.obj [("text", JsonValue.str "a")],
                JsonValue.obj [("text", JsonValue.str "b")]] : List JsonValue).get ⟨i, hi⟩)
            = some t ∧
          Dataset.getitem ⟨[JsonValue.obj [("text", JsonValue.str "a")],
                JsonValue.obj [("text", JsonValue.str "b")]], "text"⟩ (i : Int)
            = Except.ok t := by
  have h := load_dataset_valid_file pairFS toyParse "data.jsonl" [lineA, lineB]
    [JsonValue.obj [("text", JsonValue.str "a")], JsonValue.obj [("text", JsonValue.str "b")]]
    rfl rfl
    (by
      intro v hv
      rw [show toyParse "" = Except.error "Expecting value" from rfl] at hv
      exact Except.noConfusion hv)
    (by
      intro v hv
      rcases List.mem_cons.mp hv with rfl | hv
      · exact ⟨JsonValue.str "a", rfl⟩
      rcases List.mem_cons.mp hv with rfl | hv
      · exact ⟨JsonValue.str "b", rfl⟩
      exact absurd hv (List.not_mem_nil v))
  obtain ⟨d, h1, h2, h3, h4⟩ := h
  have hd : d = ⟨[JsonValue.obj [("text", JsonValue.str "a")],
                  JsonValue.obj [("text", JsonValue.str "b")]], "text"⟩ := by
    have h5 : Except.ok (ε := LoadError) d
        = Except.ok ⟨[JsonValue.obj [("text", JsonValue.str "a")],
                      JsonValue.obj [("text", JsonValue.str "b")]], "text"⟩ := by
      rw [← h1]
      rfl
    exact Except.ok.inj h5
  subst hd
  exact ⟨_, h1, h2, h3, h4⟩

/-- Claim C3 (counterexample): the claim says `get(i)` fails for every
`i < 0`, but on the one-record dataset `get(-1)` succeeds and returns
the last record's text, by Python negative indexing. -/
theorem getitem_negative_index_succeeds :
    (-1 : Int) < 0 ∧ singletonDataset.getitem (-1) = Except.ok (JsonValue.str "a") :=
  ⟨by decide, rfl⟩

/-- Claim C3 (amended): `get(i)` raises the out-of-range error exactly
when `i ≥ length` or `i < -length`; every successful access satisfies
`-length ≤ i < length` (indices in `[-length, -1]` address records from
the back, Python semantics). -/
theorem getitem_range_amended (d : Dataset) (idx : Int) :
    (d.getitem idx = Except.error GetError.indexError
      ↔ idx < -(d.len : Int) ∨ (d.len : Int) ≤ idx) ∧
    ∀ v, d.getitem idx = Except.ok v → -(d.len : Int) ≤ idx ∧ idx < (d.len : Int) := by
  have hlen : d.len = d.data.length := rfl
  constructor
  · constructor
    · intro h
      cases hpy : pyListGet d.data idx with
      | none =>
        have hr := (pyListGet_eq_none d.data idx).mp hpy
        omega
      | some v =>
        exfalso
        unfold Dataset.getitem at h
        rw [hpy] at h
        cases v with
        | obj fields =>
          change (match List.lookup d.key fields with
              | some v => Except.ok v
              | none => Except.error (GetError.keyError d.key))
            = Except.error GetError.indexError at h
          cases hlk : List.lookup d.key fields with
          | some w =>
            rw [hlk] at h
            exact Except.noConfusion h
          | none =>
            rw [hlk] at h
            injection h with h2
            exact GetError.noConfusion h2
        | null => injection h with h2; exact GetError.noConfusion h2
        | bool b => injection h with h2; exact GetError.noConfusion h2
        | num n => injection h with h2; exact GetError.noConfusion h2
        | str s => injection h with h2; exact GetError.noConfusion h2
        | arr elems => injection h with h2; exact GetError.noConfusion h2
    · intro hr
      unfold Dataset.getitem
      rw [(pyListGet_eq_none d.data idx).mpr (by omega)]
  · intro v hv
    cases hpy : pyListGet d.data idx with
    | none =>
      exfalso
      unfold Dataset.getitem at hv
      rw [hpy] at hv
      exact Except.noConfusion hv
    | some w =>
      have hnr : ¬(idx < -(d.data.length : Int) ∨ (d.data.length : Int) ≤ idx) := by
        intro hr
        rw [(pyListGet_eq_none d.data idx).mpr hr] at hpy
        exact Option.noConfusion hpy
      omega

/-- Witness for the amended C3: both out-of-range directions raise the
out-of-range error on a concrete one-record dataset. -/
theorem getitem_range_amended_app :
    singletonDataset.getitem 5 = Except.error GetError.indexError ∧
    singletonDataset.getitem (-2) = Except.error GetError.indexError :=
  ⟨(getitem_range_amended singletonDataset 5).1.mpr (Or.inr (by decide)),
   (getitem_range_amended singletonDataset (-2)).1.mpr (Or.inl (by decide))⟩

/-- Claim C6: on a path that does not exist, `load_dataset` fails with
`FileNotFoundError` straight away — no accessor and no records are
produced. -/
theorem load_dataset_missing_file (fs : FileSystem)
    (jsonLoads : String → Except String JsonValue) (path : String)
    (h : fs.files path = none) :
    load_dataset fs jsonLoads path = Except.error (LoadError.fileNotFound path) := by
  unfold load_dataset
  rw [h]

/-- Witness for C6 on an empty filesystem. -/
theorem load_dataset_missing_file_app :
    load_dataset emptyFS toyParse "missing.jsonl"
      = Except.error (LoadError.fileNotFound "missing.jsonl") :=
  load_dataset_missing_file emptyFS toyParse "missing.jsonl" rfl

/-- Claim C7: a malformed line anywhere in an existing file makes the
load fail with a propagated parse error; no accessor is returned. -/
theorem load_dataset_malformed_line (fs : FileSystem)
    (jsonLoads : String → Except String JsonValue) (path : String)
    (lines : List String) (l : String) (e : String)
    (hfs : fs.files path = some lines) (hl : l ∈ lines)
    (he : jsonLoads l = Except.error e) :
    ∃ msg, load_dataset fs jsonLoads path = Except.error (LoadError.parseError msg) := by
  obtain ⟨msg, hm⟩ := mapLines_mem_error jsonLoads lines l e hl he
  refine ⟨msg, ?_⟩
  rw [load_dataset_some fs jsonLoads path lines hfs, hm]

/-- Witness for C7 on a file whose second line is not JSON. -/
theorem load_dataset_malformed_line_app :
    ∃ msg, load_dataset malformedFS toyParse "bad.jsonl"
      = Except.error (LoadError.parseError msg) :=
  load_dataset_malformed_line malformedFS toyParse "bad.jsonl" [lineA, "oops"]
    "oops" "Expecting value" rfl (by decide) rfl

/-- Claim C8: at an in-range index whose record is an object, `get`
returns the value under the configured key, and raises the missing-key
error exactly when the record lacks the key. -/
theorem getitem_key_access (d : Dataset) (i : Nat) (hi : i < d.len)
    (fields : List (String × JsonValue))
    (hrec : d.data.get ⟨i, hi⟩ = JsonValue.obj fields) :
    (∀ v, fields.lookup d.key = some v → d.getitem (i : Int) = Except.ok v) ∧
    (fields.lookup d.key = none
      → d.getitem (i : Int) = Except.error (GetError.keyError d.key)) :=
  ⟨fun v hv => getitem_ok_of d i hi fields v hrec hv,
   fun hn => getitem_keyError_of d i hi fields hrec hn⟩

/-- Witness for C8: on a concrete two-record dataset, `get 0` returns
the "text" value and `get 1` raises the missing-key error. -/
theorem getitem_key_access_app :
    mixedKeyDataset.getitem 0 = Except.ok (JsonValue.str "a") ∧
    mixedKeyDataset.getitem 1 = Except.error (GetError.keyError "text") :=
  ⟨(getitem_key_access mixedKeyDataset 0 (by decide)
      [("text", JsonValue.str "a")] rfl).1 (JsonValue.str "a") rfl,
   (getitem_key_access mixedKeyDataset 1 (by decide)
      [("label", JsonValue.num 1)] rfl).2 rfl⟩

/-- Claim C10: the loader does no schema validation — when every line is
syntactically valid JSON the load succeeds over all parsed values, even
non-objects and objects without "text"; the missing-key or wrong-type
failure surfaces only later, at `get` on the offending index. -/
theorem load_dataset_no_schema_validation (fs : FileSystem)
    (jsonLoads : String → Except String JsonValue) (path : String)
    (lines : List String) (vs : List JsonValue)
    (hfs : fs.files path = some lines)
    (hparse : mapLines jsonLoads lines = Except.ok vs) :
    load_dataset fs jsonLoads path = Except.ok ⟨vs, "text"⟩ ∧
    (∀ i (hi : i < vs.length),
      (∀ fields, vs.get ⟨i, hi⟩ ≠ JsonValue.obj fields)
        → Dataset.getitem ⟨vs, "text"⟩ (i : Int) = Except.error GetError.typeError) ∧
    (∀ i (hi : i < vs.length) (fields : List (String × JsonValue)),
      vs.get ⟨i, hi⟩ = JsonValue.obj fields → fields.lookup "text" = none
        → Dataset.getitem ⟨vs, "text"⟩ (i : Int)
            = Except.error (GetError.keyError "text")) := by
  refine ⟨?_, ?_, ?_⟩
  · rw [load_dataset_some fs jsonLoads path lines hfs, hparse]
  · intro i hi hno
    exact getitem_typeError_of ⟨vs, "text"⟩ i hi hno
  · intro i hi fields hrec hlk
    exact getitem_keyError_of ⟨vs, "text"⟩ i hi fields hrec hlk

/-- Witness for C10 on a file of three valid JSON lines, one a bare
number and one an object without "text": the load succeeds and the
failures appear only at access time. -/
theorem load_dataset_no_schema_validation_app :
    load_dataset schemalessFS toyParse "odd.jsonl"
      = Except.ok ⟨[JsonValue.obj [("text", JsonValue.str "a")], JsonValue.num 123,
                    JsonValue.obj [("label", JsonValue.num 1)]], "text"⟩ ∧
    Dataset.getitem ⟨[JsonValue.obj [("text", JsonValue.str "a")], JsonValue.num 123,
                    JsonValue.obj [("label", JsonValue.num 1)]], "text"⟩ 1
      = Except.error GetError.typeError ∧
    Dataset.getitem ⟨[JsonValue.obj [("text", JsonValue.str "a")], JsonValue.num 123,
                    JsonValue.obj [("label", JsonValue.num 1)]], "text"⟩ 2
      = Except.error (GetError.keyError "text") := by
  have h := load_dataset_no_schema_validation schemalessFS toyParse "odd.jsonl"
    [lineA, lineNum, lineNoText]
    [JsonValue.obj [("text", JsonValue.str "a")], JsonValue.num 123,
     JsonValue.obj [("label", JsonValue.num 1)]] rfl rfl
  exact ⟨h.1, h.2.1 1 (by decide) (fun fields hf => JsonValue.noConfusion hf),
    h.2.2 2 (by decide) [("label", JsonValue.num 1)] rfl rfl⟩

/-- Claim C9: every invocation of the training orchestrator passes the
external trainer exactly the literal configuration of the notebook, an
AdamW optimizer bound to a cosine-decay schedule built from the initial
rate and the total iteration count (5000 = `iters`), and the two
accessors. -/
theorem train_model_invocation {M T : Type} (model : M) (tokenizer : T)
    (train_dst valid_dst : Dataset) :
    train_model model tokenizer train_dst valid_dst
      = ⟨model, tokenizer, ⟨1, 5000, 25, 10, 200, 200, "adapters.npz", 4096⟩,
         Optimizer.adamW (LRSchedule.cosine_decay (1 / 100000) 5000),
         train_dst, valid_dst⟩ ∧
    (train_model model tokenizer train_dst valid_dst).optimizer
      = Optimizer.adamW (LRSchedule.cosine_decay (1 / 100000)
          (train_model model tokenizer train_dst valid_dst).args.iters) :=
  ⟨rfl, rfl⟩

end VodalusMLX
